import Mathlib

/-!
Shallow embedding of `src/memory-leak.gateway.ts` (class `MemoryLeakGateway`).

Modelling conventions:
* A JavaScript `Map<string, UserSession>` is an association list
  `List (String × UserSession)`; `Map.get` is `mapGet` (first entry with the
  key) and `Map.set` is `mapSet` (replace the entry when the key is present,
  append otherwise), matching insertion-order semantics of JS maps.
* `setInterval` returns an opaque handle; we number handles with a counter
  `nextHandle`.  A handle is *active* (its callback keeps firing) while it is
  in `activeHandles`.  `clearInterval h` removes `h` from `activeHandles`
  (a no-op when `h` is not active, as in Node) and is additionally recorded
  in `cancelCalls` so that the number of cancellation calls per handle is
  observable.
* `Buffer.alloc n` is modelled by its size `n` (the contents, all `'x'`, play
  no role in any observable behaviour).
* `Date.now()` readings inside `handleHeavyComputation` are supplied by an
  environment parameter `now : Nat → Nat` giving the value of the j-th
  reading; elsewhere a single per-operation clock `GatewayState.clock` is
  used.  Wall-clock monotonicity is an environment assumption, stated as a
  hypothesis where a claim needs it.
* `client.emit` is modelled by returning the list of emitted events.
* A thrown exception (`undefined.toString()`) is modelled with `Except`.
-/

/-- `interface UserSession` of the gateway: identity, the 1 MiB working
buffer (modelled by its byte size), and the recorded resource lists. -/
structure UserSession where
  userId : String
  socketId : String
  dataSize : Nat
  timers : List Nat
  intervals : List Nat
  listeners : List String
  deriving Repr, DecidableEq

/-- `{ timestamp, message, userId }` entries of `messageHistory`. -/
structure HistoryEntry where
  timestamp : Nat
  message : String
  userId : String
  deriving Repr, DecidableEq

/-- The mutable fields of the `MemoryLeakGateway` instance, together with the
bookkeeping needed to observe timer handles and cancellations. -/
structure GatewayState where
  userSessions : List (String × UserSession)
  globalEventHandlers : List String
  messageHistory : List HistoryEntry
  activeHandles : List Nat
  cancelCalls : List Nat
  nextHandle : Nat
  clock : Nat
  deriving Repr, DecidableEq

/-- The gateway state at process start: all collections empty. -/
def GatewayState.initial : GatewayState :=
  { userSessions := [], globalEventHandlers := [], messageHistory := [],
    activeHandles := [], cancelCalls := [], nextHandle := 0, clock := 0 }

/-- JS `Map.get k`: the value of the first entry whose key is `k`. -/
def mapGet (m : List (String × UserSession)) (k : String) : Option UserSession :=
  (m.find? (fun p => p.1 = k)).map Prod.snd

/-- JS `Map.set k v`: replace the entry when `k` is present, else append. -/
def mapSet (m : List (String × UserSession)) (k : String) (v : UserSession) :
    List (String × UserSession) :=
  if m.any (fun p => p.1 = k) then
    m.map (fun p => if p.1 = k then (k, v) else p)
  else
    m ++ [(k, v)]

/-- The body of the per-connection `setInterval` callback in
`handleConnection` (lines 77–89): push a ping entry, then, when the length
exceeds 10000, keep only the last 5000 entries (`slice(-5000)`). -/
def tickAppend (h : List HistoryEntry) (e : HistoryEntry) : List HistoryEntry :=
  let h' := h ++ [e]
  if h'.length > 10000 then h'.drop (h'.length - 5000) else h'

/-- The `messageHistory.push` in `handleHeavyComputation` (lines 171–175):
an unconditional append, with no trimming. -/
def heavyAppend (h : List HistoryEntry) (e : HistoryEntry) : List HistoryEntry :=
  h ++ [e]

/-- `handleConnection(client)`: synthesize the user id from the handshake
auth (or `anonymous_<Date.now()>`), build the session with its 1 MiB buffer,
store it with `userSessions.set` (silently overwriting any entry already at
`client.id`), record the `pong` listener, start the per-connection history
timer and push its handle to `session.timers`, and append a broadcast
closure for this client to `globalEventHandlers`. -/
def handleConnection (clientId : String) (authUserId : Option String)
    (s : GatewayState) : GatewayState :=
  let uid := match authUserId with
    | some u => u
    | none => "anonymous_" ++ toString s.clock
  let h := s.nextHandle
  let session : UserSession :=
    { userId := uid, socketId := clientId, dataSize := 1024 * 1024,
      timers := [h], intervals := [], listeners := ["pong"] }
  { s with
    userSessions := mapSet s.userSessions clientId session,
    activeHandles := h :: s.activeHandles,
    nextHandle := h + 1,
    globalEventHandlers := s.globalEventHandlers ++ [clientId] }

/-- `handleDisconnect(client)`: look the session up; when found and its
`timers` list is non-empty, `clearInterval(session.timers[0])` — and nothing
else.  No map entry, listener or global handler is removed. -/
def handleDisconnect (clientId : String) (s : GatewayState) : GatewayState :=
  match mapGet s.userSessions clientId with
  | none => s
  | some session =>
    match session.timers with
    | [] => s
    | t :: _ =>
      { s with
        activeHandles := s.activeHandles.erase t,
        cancelCalls := s.cancelCalls ++ [t] }

/-- `handleSubscribeUpdates(data, client)`: return `undefined` when no
session is registered for `client.id`; otherwise create the 2-second update
interval — without pushing it to `session.intervals` (the push is commented
out in the source) — and return `{ status: 'subscribed', userId }`. -/
def handleSubscribeUpdates (clientId userId : String) (s : GatewayState) :
    GatewayState × Option (String × String) :=
  match mapGet s.userSessions clientId with
  | none => (s, none)
  | some _ =>
    ({ s with
        activeHandles := s.nextHandle :: s.activeHandles,
        nextHandle := s.nextHandle + 1 },
      some ("subscribed", userId))

/-- One `computation_result` event: `{ iteration, size, timestamp }`, where
`size` is the length of `Buffer.concat([largeData, Buffer.from("iteration_" ++ i)])`,
i.e. 100 KiB plus the length of the suffix string. -/
structure CompEvent where
  iteration : Nat
  size : Nat
  timestamp : Nat
  deriving Repr, DecidableEq

/-- Result of `handleHeavyComputation`: the state after the call, the
`computation_result` events emitted to the calling client, and the returned
value (`Except.error` models the `TypeError` thrown by
`data.iterations.toString()` when the field is absent). -/
structure HeavyOutcome where
  state : GatewayState
  client : String
  events : List CompEvent
  ret : Except String Nat
  deriving Repr

/-- `data.iterations || 100`: `0` and `undefined` are falsy, so both give
the default `100`. -/
def effIterations : Option Nat → Nat
  | none => 100
  | some 0 => 100
  | some (k + 1) => k + 1

/-- `handleHeavyComputation(data, client)`: run `data.iterations || 100`
iterations, each emitting `computation_result` with the iteration index, the
concatenated buffer size and a `Date.now()` reading; then push a summary
entry whose `userId` is `data.iterations.toString()` — which throws a
`TypeError` when the field is absent, after the events have already been
emitted and before the push happens — and return `{ processed }`.
The session registry is never consulted. -/
def handleHeavyComputation (now : Nat → Nat) (clientId : String)
    (iterations : Option Nat) (s : GatewayState) : HeavyOutcome :=
  let n := effIterations iterations
  let events := (List.range n).map (fun i =>
    { iteration := i,
      size := 100 * 1024 + ("iteration_" ++ toString i).length,
      timestamp := now i : CompEvent })
  match iterations with
  | none =>
    { state := s, client := clientId, events := events,
      ret := Except.error "TypeError: Cannot read properties of undefined" }
  | some k =>
    let e : HistoryEntry :=
      { timestamp := now n,
        message := "Heavy computation completed: " ++ toString n ++ " operations",
        userId := toString k }
    { state := { s with messageHistory := heavyAppend s.messageHistory e },
      client := clientId, events := events,
      ret := Except.ok n }

/-- The gateway-level fields of the `get_memory_stats` reply (the process
memory numbers are environment readings outside the model). -/
structure MemoryStats where
  activeSessions : Nat
  messageHistoryLength : Nat
  globalHandlers : Nat
  deriving Repr, DecidableEq

/-- `handleGetMemoryStats(client)`: a read-only snapshot of the collection
sizes; the state is not changed. -/
def handleGetMemoryStats (s : GatewayState) : GatewayState × MemoryStats :=
  (s, { activeSessions := s.userSessions.length,
        messageHistoryLength := s.messageHistory.length,
        globalHandlers := s.globalEventHandlers.length })

/-- One element of the `updates` array built by `generateFakeUpdates`: note
the `sessionData` field holding the session aggregate itself. -/
structure UpdateItem where
  id : Nat
  message : String
  sessionData : Option UserSession
  timestamp : Nat
  deriving Repr, DecidableEq

/-- The `user_updates` payload `{ userId, updates }`. -/
structure UpdatesPayload where
  userId : String
  updates : List UpdateItem
  deriving Repr, DecidableEq

/-- `Array.from(this.userSessions.values()).find(s => s.userId === userId)`. -/
def findSessByUser (userId : String) (s : GatewayState) : Option UserSession :=
  (s.userSessions.map Prod.snd).find? (fun x => x.userId = userId)

/-- `generateFakeUpdates(userId)`: find the session whose `userId` matches
and build 50 update items, each embedding that session in `sessionData`. -/
def generateFakeUpdates (userId : String) (s : GatewayState) : UpdatesPayload :=
  let session := findSessByUser userId s
  { userId := userId,
    updates := (List.range 50).map (fun i =>
      { id := i,
        message := "Update " ++ toString i ++ " for " ++ userId,
        sessionData := session,
        timestamp := s.clock : UpdateItem }) }

/-- The body of the per-connection history timer (lines 78–88), as a state
transformer: append a ping entry for this client via `tickAppend`. -/
def timerTick (clientId sessUserId : String) (s : GatewayState) : GatewayState :=
  let e : HistoryEntry :=
    { timestamp := s.clock,
      message := "Ping from " ++ clientId,
      userId := sessUserId }
  { s with messageHistory := tickAppend s.messageHistory e }

/-- The inbound gateway operations (section 6 of the spec). -/
inductive GatewayOp where
  | connect (clientId : String) (authUserId : Option String)
  | disconnect (clientId : String)
  | subscribeUpdates (clientId userId : String)
  | heavyComputation (clientId : String) (iterations : Option Nat)
  | getMemoryStats
  | forceGC
  deriving Repr, DecidableEq

/-- Apply one inbound operation to the gateway state.  `get_memory_stats`
and `force_gc` only emit replies and never mutate the tracked collections. -/
def applyOp (s : GatewayState) : GatewayOp → GatewayState
  | .connect c u => handleConnection c u s
  | .disconnect c => handleDisconnect c s
  | .subscribeUpdates c u => (handleSubscribeUpdates c u s).1
  | .heavyComputation c it => (handleHeavyComputation (fun _ => s.clock) c it s).state
  | .getMemoryStats => s
  | .forceGC => s

/-- Apply a sequence of inbound operations in order. -/
def applyOps (s : GatewayState) (ops : List GatewayOp) : GatewayState :=
  ops.foldl applyOp s

/-! Helper lemmas about the association-list map operations. -/

theorem find?_mapSet_replace (m : List (String × UserSession)) (k : String)
    (v : UserSession) (h : m.any (fun p => p.1 = k) = true) :
    (m.map (fun p => if p.1 = k then (k, v) else p)).find? (fun p => p.1 = k)
      = some (k, v) := by
  induction m with
  | nil => simp at h
  | cons p m ih =>
    by_cases hp : p.1 = k
    · simp [hp, List.find?]
    · simp only [List.any_cons, Bool.or_eq_true, decide_eq_true_eq] at h
      rcases h with h | h
      · exact absurd h hp
      · simp [hp, List.find?, ih h]

theorem find?_append_single (m : List (String × UserSession)) (k : String)
    (v : UserSession) (h : m.any (fun p => p.1 = k) = false) :
    (m ++ [(k, v)]).find? (fun p => p.1 = k) = some (k, v) := by
  induction m with
  | nil => simp [List.find?]
  | cons p m ih =>
    simp only [List.any_cons, Bool.or_eq_false_iff, decide_eq_false_iff_not] at h
    simp [List.find?, h.1, ih h.2]

theorem mapGet_mapSet_self (m : List (String × UserSession)) (k : String)
    (v : UserSession) : mapGet (mapSet m k v) k = some v := by
  unfold mapGet mapSet
  by_cases h : m.any (fun p => p.1 = k)
  · simp [h, find?_mapSet_replace m k v h]
  · simp only [Bool.not_eq_true] at h
    simp [h, find?_append_single m k v h]

theorem any_key_of_mapGet_some (m : List (String × UserSession)) (k : String)
    (v : UserSession) (h : mapGet m k = some v) :
    m.any (fun p => p.1 = k) = true := by
  unfold mapGet at h
  rcases Option.map_eq_some'.mp h with ⟨p, hp, _⟩
  have hmem := List.mem_of_find?_eq_some hp
  have hkey := List.find?_some hp
  exact List.any_eq_true.mpr ⟨p, hmem, hkey⟩

theorem length_mapSet (m : List (String × UserSession)) (k : String)
    (v : UserSession) :
    (mapSet m k v).length
      = if m.any (fun p => p.1 = k) then m.length else m.length + 1 := by
  unfold mapSet
  split <;> simp

theorem length_le_length_mapSet (m : List (String × UserSession)) (k : String)
    (v : UserSession) : m.length ≤ (mapSet m k v).length := by
  rw [length_mapSet]
  split <;> omega

theorem keys_subset_keys_mapSet (m : List (String × UserSession)) (k : String)
    (v : UserSession) : m.map Prod.fst ⊆ (mapSet m k v).map Prod.fst := by
  unfold mapSet
  split
  · intro a ha
    simp only [List.map_map, List.mem_map, Function.comp] at ha ⊢
    rcases ha with ⟨p, hp, rfl⟩
    refine ⟨p, hp, ?_⟩
    by_cases hpk : p.1 = k <;> simp [hpk]
  · intro a ha
    simp only [List.map_append, List.mem_append]
    exact Or.inl ha

/-! Characterizations of the handlers, used across several claims. -/

theorem handleDisconnect_found (s : GatewayState) (c : String)
    (sess : UserSession) (t : Nat) (ts : List Nat)
    (hget : mapGet s.userSessions c = some sess) (ht : sess.timers = t :: ts) :
    handleDisconnect c s
      = { s with activeHandles := s.activeHandles.erase t,
                 cancelCalls := s.cancelCalls ++ [t] } := by
  unfold handleDisconnect
  rw [hget]
  dsimp only
  rw [ht]

theorem handleDisconnect_found_no_timer (s : GatewayState) (c : String)
    (sess : UserSession) (hget : mapGet s.userSessions c = some sess)
    (ht : sess.timers = []) : handleDisconnect c s = s := by
  unfold handleDisconnect
  rw [hget]
  dsimp only
  rw [ht]

theorem handleConnection_userSessions (c : String) (u : Option String)
    (s : GatewayState) :
    (handleConnection c u s).userSessions
      = mapSet s.userSessions c
          { userId := match u with
              | some x => x
              | none => "anonymous_" ++ toString s.clock,
            socketId := c, dataSize := 1024 * 1024,
            timers := [s.nextHandle], intervals := [], listeners := ["pong"] } := rfl

theorem handleSubscribeUpdates_found (s : GatewayState) (c uid : String)
    (sess : UserSession) (hget : mapGet s.userSessions c = some sess) :
    handleSubscribeUpdates c uid s
      = ({ s with activeHandles := s.nextHandle :: s.activeHandles,
                  nextHandle := s.nextHandle + 1 },
         some ("subscribed", uid)) := by
  unfold handleSubscribeUpdates
  rw [hget]

/-- A formal stand-in for one entry of `messageHistory`, used to build
concrete histories. -/
def pingEntry : HistoryEntry :=
  { timestamp := 0, message := "Ping from c1", userId := "u1" }

/-- The history after `n` ticks of a connection timer, starting empty. -/
def histN : Nat → List HistoryEntry
  | 0 => []
  | n + 1 => tickAppend (histN n) pingEntry

theorem length_tickAppend_le (h : List HistoryEntry) (e : HistoryEntry) :
    (tickAppend h e).length ≤ 10000 := by
  unfold tickAppend
  simp only [List.length_append, List.length_singleton]
  split
  · simp only [List.length_drop, List.length_append, List.length_singleton]
    omega
  · simp only [List.length_append, List.length_singleton]
    omega

theorem length_tickAppend_of_le (h : List HistoryEntry) (e : HistoryEntry)
    (hl : h.length ≤ 9999) : (tickAppend h e).length = h.length + 1 := by
  simp only [tickAppend]
  simp only [List.length_append, List.length_singleton]
  split
  · exfalso
    omega
  · simp

theorem length_tickAppend_overflow (h : List HistoryEntry) (e : HistoryEntry)
    (hl : 10000 ≤ h.length) : (tickAppend h e).length = 5000 := by
  unfold tickAppend
  simp only [List.length_append, List.length_singleton]
  rw [if_pos (by omega)]
  simp only [List.length_drop, List.length_append, List.length_singleton]
  omega

theorem length_heavyAppend (h : List HistoryEntry) (e : HistoryEntry) :
    (heavyAppend h e).length = h.length + 1 := by
  simp [heavyAppend]

theorem histN_length (n : Nat) (hn : n ≤ 10000) : (histN n).length = n := by
  induction n with
  | zero => rfl
  | succ m ih =>
    have hm : (histN m).length = m := ih (by omega)
    unfold histN
    rw [length_tickAppend_of_le (histN m) pingEntry (by omega), hm]

theorem effIterations_of_pos (k : Nat) (hk : 1 ≤ k) :
    effIterations (some k) = k := by
  cases k with
  | zero => omega
  | succ m => rfl

theorem heavy_events_eq (now : Nat → Nat) (c : String) (it : Option Nat)
    (s : GatewayState) :
    (handleHeavyComputation now c it s).events
      = (List.range (effIterations it)).map (fun i =>
          { iteration := i,
            size := 100 * 1024 + ("iteration_" ++ toString i).length,
            timestamp := now i : CompEvent }) := by
  cases it <;> rfl

theorem heavy_events_length (now : Nat → Nat) (c : String) (it : Option Nat)
    (s : GatewayState) :
    (handleHeavyComputation now c it s).events.length = effIterations it := by
  rw [heavy_events_eq]
  simp

theorem gfu_map_sessionData (uid : String) (s : GatewayState) :
    (generateFakeUpdates uid s).updates.map (fun x => x.sessionData)
      = List.replicate 50 (findSessByUser uid s) := by
  unfold generateFakeUpdates
  simp only [List.map_map]
  have : ((fun x : UpdateItem => x.sessionData) ∘ (fun i =>
      { id := i,
        message := "Update " ++ toString i ++ " for " ++ uid,
        sessionData := findSessByUser uid s,
        timestamp := s.clock : UpdateItem }))
      = fun _ : Nat => findSessByUser uid s := rfl
  rw [this]
  have hrep := List.map_const (List.range 50) (findSessByUser uid s)
  rw [List.length_range] at hrep
  exact hrep

/-! Per-operation facts about the session map, feeding the registry-growth
claim. -/

theorem handleDisconnect_userSessions (c : String) (s : GatewayState) :
    (handleDisconnect c s).userSessions = s.userSessions := by
  unfold handleDisconnect
  cases mapGet s.userSessions c with
  | none => rfl
  | some sess =>
    dsimp only
    cases sess.timers with
    | nil => rfl
    | cons t ts => rfl

theorem handleSubscribeUpdates_userSessions (c u : String) (s : GatewayState) :
    (handleSubscribeUpdates c u s).1.userSessions = s.userSessions := by
  unfold handleSubscribeUpdates
  cases mapGet s.userSessions c with
  | none => rfl
  | some sess => rfl

theorem heavy_state_userSessions (now : Nat → Nat) (c : String)
    (it : Option Nat) (s : GatewayState) :
    (handleHeavyComputation now c it s).state.userSessions = s.userSessions := by
  cases it <;> rfl

theorem applyOp_userSessions_length (s : GatewayState) (op : GatewayOp) :
    s.userSessions.length ≤ (applyOp s op).userSessions.length := by
  cases op with
  | connect c u =>
    simpa [applyOp, handleConnection] using
      length_le_length_mapSet s.userSessions c _
  | disconnect c =>
    rw [show applyOp s (GatewayOp.disconnect c) = handleDisconnect c s from rfl,
        handleDisconnect_userSessions]
  | subscribeUpdates c u =>
    rw [show applyOp s (GatewayOp.subscribeUpdates c u)
          = (handleSubscribeUpdates c u s).1 from rfl,
        handleSubscribeUpdates_userSessions]
  | heavyComputation c it =>
    rw [show applyOp s (GatewayOp.heavyComputation c it)
          = (handleHeavyComputation (fun x => s.clock) c it s).state from rfl,
        heavy_state_userSessions]
  | getMemoryStats => exact Nat.le_refl _
  | forceGC => exact Nat.le_refl _

theorem applyOp_keys_subset (s : GatewayState) (op : GatewayOp) :
    s.userSessions.map Prod.fst ⊆ (applyOp s op).userSessions.map Prod.fst := by
  cases op with
  | connect c u =>
    simpa [applyOp, handleConnection] using
      keys_subset_keys_mapSet s.userSessions c _
  | disconnect c =>
    rw [show applyOp s (GatewayOp.disconnect c) = handleDisconnect c s from rfl,
        handleDisconnect_userSessions]
    exact List.Subset.refl _
  | subscribeUpdates c u =>
    rw [show applyOp s (GatewayOp.subscribeUpdates c u)
          = (handleSubscribeUpdates c u s).1 from rfl,
        handleSubscribeUpdates_userSessions]
    exact List.Subset.refl _
  | heavyComputation c it =>
    rw [show applyOp s (GatewayOp.heavyComputation c it)
          = (handleHeavyComputation (fun x => s.clock) c it s).state from rfl,
        heavy_state_userSessions]
    exact List.Subset.refl _
  | getMemoryStats => exact List.Subset.refl _
  | forceGC => exact List.Subset.refl _

theorem applyOps_userSessions_length (s : GatewayState) (ops : List GatewayOp) :
    s.userSessions.length ≤ (applyOps s ops).userSessions.length := by
  induction ops generalizing s with
  | nil => exact Nat.le_refl _
  | cons op ops ih =>
    exact Nat.le_trans (applyOp_userSessions_length s op) (ih (applyOp s op))

theorem applyOps_keys_subset (s : GatewayState) (ops : List GatewayOp) :
    s.userSessions.map Prod.fst ⊆ (applyOps s ops).userSessions.map Prod.fst := by
  induction ops generalizing s with
  | nil => exact List.Subset.refl _
  | cons op ops ih =>
    exact List.Subset.trans (applyOp_keys_subset s op) (ih (applyOp s op))

/-! Claim theorems. -/

/-- Claim C9: over every sequence of gateway operations (connect, disconnect,
subscribe_updates, heavy_computation, get_memory_stats, force_gc), no
operation ever deletes a key from `userSessions`: every key present before
is present after, and the `activeSessions` count reported by
`get_memory_stats` is monotonically non-decreasing. -/
theorem C9_sessions_never_shrink (s : GatewayState) (ops : List GatewayOp) :
    (handleGetMemoryStats s).2.activeSessions
        ≤ (handleGetMemoryStats (applyOps s ops)).2.activeSessions ∧
    s.userSessions.map Prod.fst ⊆ (applyOps s ops).userSessions.map Prod.fst :=
  ⟨applyOps_userSessions_length s ops, applyOps_keys_subset s ops⟩

/-- Witness for C9 at a concrete state and operation sequence. -/
theorem C9_sessions_never_shrink_witness :
    (handleGetMemoryStats GatewayState.initial).2.activeSessions
        ≤ (handleGetMemoryStats (applyOps GatewayState.initial
            [GatewayOp.connect "c1" (some "u1"),
             GatewayOp.disconnect "c1"])).2.activeSessions ∧
    GatewayState.initial.userSessions.map Prod.fst
        ⊆ (applyOps GatewayState.initial
            [GatewayOp.connect "c1" (some "u1"),
             GatewayOp.disconnect "c1"]).userSessions.map Prod.fst :=
  C9_sessions_never_shrink GatewayState.initial
    [GatewayOp.connect "c1" (some "u1"), GatewayOp.disconnect "c1"]

/-- Claim C3 is false on the code: after 10000 connection-timer appends the
history has 10000 entries, one further heavy-computation append leaves it at
10001 — above the 10000 threshold, the only cap in the code — and a
connection-timer append on a full history evicts down to 5000 entries, not
to the cap. -/
theorem C3_counterexample :
    (heavyAppend (histN 10000) pingEntry).length = 10001 ∧
    (tickAppend (histN 10000) pingEntry).length = 5000 ∧
    ¬ (10001 ≤ 10000) := by
  have h10 : (histN 10000).length = 10000 := histN_length 10000 (Nat.le_refl _)
  refine ⟨?_, ?_, by omega⟩
  · rw [length_heavyAppend, h10]
  · rw [length_tickAppend_overflow (histN 10000) pingEntry (by omega)]

/-- Claim C3 (amended): a connection-timer append keeps the history at or
below 10000 entries, and when it overflows it evicts down to exactly 5000
entries (half the threshold, not the cap); the heavy-computation append
never trims, growing the history by one unconditionally. -/
theorem C3_amended (h : List HistoryEntry) (e : HistoryEntry) :
    (tickAppend h e).length ≤ 10000 ∧
    (10000 ≤ h.length → (tickAppend h e).length = 5000) ∧
    (heavyAppend h e).length = h.length + 1 :=
  ⟨length_tickAppend_le h e,
   fun hl => length_tickAppend_overflow h e hl,
   length_heavyAppend h e⟩

/-- Witness for C3 (amended) at a concrete overflowing history. -/
theorem C3_amended_witness :
    (tickAppend (histN 10000) pingEntry).length ≤ 10000 ∧
    (10000 ≤ (histN 10000).length → (tickAppend (histN 10000) pingEntry).length = 5000) ∧
    (heavyAppend (histN 10000) pingEntry).length = (histN 10000).length + 1 :=
  C3_amended (histN 10000) pingEntry

/-- Claim C10 is false on the code for the absent-field case: with
`iterations` absent the handler emits its 100 events but then throws a
`TypeError` evaluating `data.iterations.toString()`, so it does not return
`{processed: 100}`. -/
theorem C10_counterexample :
    (handleHeavyComputation (fun i => i) "c1" none GatewayState.initial).events.length = 100 ∧
    (handleHeavyComputation (fun i => i) "c1" none GatewayState.initial).ret
      = Except.error "TypeError: Cannot read properties of undefined" ∧
    (handleHeavyComputation (fun i => i) "c1" none GatewayState.initial).ret
      ≠ Except.ok 100 := by
  refine ⟨?_, rfl, by simp [handleHeavyComputation]⟩
  rw [heavy_events_length]
  rfl

/-- Claim C10 (amended): with `iterations: 0` the handler performs the
default 100 units, emitting 100 `computation_result` events and returning
`{processed: 100}`; with `iterations` absent it also emits 100 events but
then throws a `TypeError` while building the history entry (reading
`toString` of `undefined`), returning no result and leaving the history
unchanged. -/
theorem C10_amended (now : Nat → Nat) (c : String) (s : GatewayState) :
    (handleHeavyComputation now c (some 0) s).events.length = 100 ∧
    (handleHeavyComputation now c (some 0) s).ret = Except.ok 100 ∧
    (handleHeavyComputation now c none s).events.length = 100 ∧
    (handleHeavyComputation now c none s).ret
      = Except.error "TypeError: Cannot read properties of undefined" ∧
    (handleHeavyComputation now c none s).state = s := by
  refine ⟨?_, rfl, ?_, rfl, rfl⟩ <;> rw [heavy_events_length] <;> rfl

/-- Claim C7 is false as universally stated: at `{iterations: 0}` the
handler emits 100 `computation_result` events and returns `{processed: 100}`
(the `|| 100` default fires on the falsy `0`), not 0 events and
`{processed: 0}`. -/
theorem C7_counterexample :
    (handleHeavyComputation (fun i => i) "c1" (some 0) GatewayState.initial).events.length = 100 ∧
    (handleHeavyComputation (fun i => i) "c1" (some 0) GatewayState.initial).ret = Except.ok 100 ∧
    ¬ ((handleHeavyComputation (fun i => i) "c1" (some 0) GatewayState.initial).events.length = 0 ∧
       (handleHeavyComputation (fun i => i) "c1" (some 0) GatewayState.initial).ret = Except.ok 0) := by
  refine ⟨?_, rfl, ?_⟩
  · rw [heavy_events_length]
    rfl
  · rintro ⟨h0, -⟩
    rw [heavy_events_length] at h0
    exact absurd h0 (by decide)

/-- Claim C7 (amended): for every call of `heavy_computation` with
`iterations: n` for `n ≥ 1`, under monotone wall-clock readings, exactly `n`
`computation_result` events are emitted, carrying iteration values `0..n-1`
in order with non-decreasing timestamps, and the handler returns
`{processed: n}`. -/
theorem C7_heavy_computation (now : Nat → Nat) (c : String) (k : Nat)
    (s : GatewayState) (hk : 1 ≤ k) (hmono : Monotone now) :
    (handleHeavyComputation now c (some k) s).events.map (fun x => x.iteration)
        = List.range k ∧
    (handleHeavyComputation now c (some k) s).events.length = k ∧
    List.Pairwise (fun a b => a ≤ b)
      ((handleHeavyComputation now c (some k) s).events.map (fun x => x.timestamp)) ∧
    (handleHeavyComputation now c (some k) s).ret = Except.ok k := by
  have hef : effIterations (some k) = k := effIterations_of_pos k hk
  have hev := heavy_events_eq now c (some k) s
  rw [hef] at hev
  refine ⟨?_, ?_, ?_, ?_⟩
  · rw [hev, List.map_map]
    have : ((fun x : CompEvent => x.iteration) ∘ (fun i =>
        { iteration := i,
          size := 100 * 1024 + ("iteration_" ++ toString i).length,
          timestamp := now i : CompEvent })) = fun i : Nat => i := rfl
    rw [this, List.map_id']
  · rw [hev, List.length_map, List.length_range]
  · rw [hev, List.map_map]
    have : ((fun x : CompEvent => x.timestamp) ∘ (fun i =>
        { iteration := i,
          size := 100 * 1024 + ("iteration_" ++ toString i).length,
          timestamp := now i : CompEvent })) = now := rfl
    rw [this]
    refine List.Pairwise.map now ?_ (List.pairwise_lt_range k)
    intro a b hab
    exact hmono (Nat.le_of_lt hab)
  · cases k with
    | zero => omega
    | succ m => rfl

/-- Witness for C7 (amended) at ten iterations with the identity clock. -/
theorem C7_heavy_computation_witness :
    (handleHeavyComputation (fun i => i) "c1" (some 10) GatewayState.initial).events.map
        (fun x => x.iteration) = List.range 10 ∧
    (handleHeavyComputation (fun i => i) "c1" (some 10) GatewayState.initial).events.length = 10 ∧
    List.Pairwise (fun a b => a ≤ b)
      ((handleHeavyComputation (fun i => i) "c1" (some 10) GatewayState.initial).events.map
        (fun x => x.timestamp)) ∧
    (handleHeavyComputation (fun i => i) "c1" (some 10) GatewayState.initial).ret
        = Except.ok 10 :=
  C7_heavy_computation (fun i => i) "c1" 10 GatewayState.initial (by decide)
    (fun a b hab => hab)

/-- Claim C8 is false on the code for `heavy_computation`: invoked for a
connection with no session in the registry (the registry is empty), it still
emits a `computation_result` event and appends to the shared history,
instead of being a `SessionNotFound` no-op. -/
theorem C8_counterexample :
    mapGet GatewayState.initial.userSessions "c1" = none ∧
    (handleHeavyComputation (fun i => i) "c1" (some 1) GatewayState.initial).events.length = 1 ∧
    (handleHeavyComputation (fun i => i) "c1" (some 1) GatewayState.initial).state.messageHistory.length = 1 := by
  refine ⟨rfl, ?_, rfl⟩
  rw [heavy_events_length]
  rfl

/-- Claim C8 (amended): `subscribe_updates` for an unregistered connection is
a no-op returning `undefined` (no timer, nothing mutated), but
`heavy_computation` never consults the registry: for an unregistered
connection it emits exactly the same events and returns the same result as
it would on an empty registry, and still appends its summary entry to the
shared history when `iterations` is present. -/
theorem C8_unknown_connection (s : GatewayState) (c u : String)
    (now : Nat → Nat) (it : Option Nat) (k : Nat)
    (hget : mapGet s.userSessions c = none) :
    handleSubscribeUpdates c u s = (s, none) ∧
    (handleHeavyComputation now c it s).events
        = (handleHeavyComputation now c it { s with userSessions := [] }).events ∧
    (handleHeavyComputation now c (some k) s).state.messageHistory.length
        = s.messageHistory.length + 1 := by
  refine ⟨?_, ?_, ?_⟩
  · unfold handleSubscribeUpdates
    rw [hget]
  · rw [heavy_events_eq, heavy_events_eq]
  · cases k <;> simp [handleHeavyComputation, length_heavyAppend]

/-- Witness for C8 (amended) on the empty registry. -/
theorem C8_unknown_connection_witness :
    handleSubscribeUpdates "c1" "u1" GatewayState.initial = (GatewayState.initial, none) ∧
    (handleHeavyComputation (fun i => i) "c1" (some 1) GatewayState.initial).events
        = (handleHeavyComputation (fun i => i) "c1" (some 1)
            { GatewayState.initial with userSessions := [] }).events ∧
    (handleHeavyComputation (fun i => i) "c1" (some 1) GatewayState.initial).state.messageHistory.length
        = GatewayState.initial.messageHistory.length + 1 :=
  C8_unknown_connection GatewayState.initial "c1" "u1" (fun i => i) (some 1) 1 rfl

/-- Claim C6 is false on the code: with a session registered for `u1`, the
first update item of the tick payload embeds that live session aggregate in
its `sessionData` field — the very value stored in the registry — not a
point-in-time copy of display values. -/
theorem C6_counterexample :
    ((generateFakeUpdates "u1" (handleConnection "c1" (some "u1") GatewayState.initial)).updates.map
        (fun x => x.sessionData)).head?
      = some (mapGet (handleConnection "c1" (some "u1") GatewayState.initial).userSessions "c1") ∧
    (mapGet (handleConnection "c1" (some "u1") GatewayState.initial).userSessions "c1").isSome
      = true := by
  constructor
  · rw [gfu_map_sessionData]
    rfl
  · rfl

/-- Claim C6 (amended): each of the 50 update items built per tick embeds
the session aggregate found for `userId` (the live session when one
matches, `none` otherwise) in its `sessionData` field, rather than only
copied scalar display values. -/
theorem C6_updates_embed_session (uid : String) (s : GatewayState) :
    (generateFakeUpdates uid s).updates.map (fun x => x.sessionData)
        = List.replicate 50 (findSessByUser uid s) ∧
    (generateFakeUpdates uid s).userId = uid :=
  ⟨gfu_map_sessionData uid s, rfl⟩

/-- Claim C1 is false on the code: after connect then disconnect of `c1`,
the session is still in the registry (lookup does not return NotFound), the
broadcast registration owned by `c1` is still in `globalEventHandlers`, and
the recorded `pong` listener is still attached. -/
theorem C1_counterexample :
    (mapGet (handleDisconnect "c1" (handleConnection "c1" (some "u1") GatewayState.initial)).userSessions "c1").isSome = true ∧
    (handleDisconnect "c1" (handleConnection "c1" (some "u1") GatewayState.initial)).globalEventHandlers = ["c1"] ∧
    (mapGet (handleDisconnect "c1" (handleConnection "c1" (some "u1") GatewayState.initial)).userSessions "c1").map
        (fun x => x.listeners) = some ["pong"] := by decide

/-- Claim C1 (amended): disconnecting a freshly connected client cancels
only the connect-created history timer (the first entry of the session's
`timers`); the session entry stays in the registry (lookup still succeeds),
the broadcast registration appended at connect remains, and nothing else is
removed. -/
theorem C1_disconnect_partial_cleanup (s : GatewayState) (c : String)
    (u : Option String) (hfresh : s.nextHandle ∉ s.activeHandles) :
    (handleDisconnect c (handleConnection c u s)).userSessions
        = (handleConnection c u s).userSessions ∧
    (mapGet (handleDisconnect c (handleConnection c u s)).userSessions c).isSome = true ∧
    (handleDisconnect c (handleConnection c u s)).globalEventHandlers
        = s.globalEventHandlers ++ [c] ∧
    s.nextHandle ∉ (handleDisconnect c (handleConnection c u s)).activeHandles ∧
    (handleDisconnect c (handleConnection c u s)).cancelCalls
        = s.cancelCalls ++ [s.nextHandle] := by
  have hget1 : mapGet (handleConnection c u s).userSessions c = some
      { userId := match u with
          | some x => x
          | none => "anonymous_" ++ toString s.clock,
        socketId := c, dataSize := 1024 * 1024,
        timers := [s.nextHandle], intervals := [], listeners := ["pong"] } := by
    rw [handleConnection_userSessions]
    exact mapGet_mapSet_self _ _ _
  have hd := handleDisconnect_found (handleConnection c u s) c _ s.nextHandle [] hget1 rfl
  refine ⟨?_, ?_, ?_, ?_, ?_⟩
  · rw [hd]
  · rw [hd]
    show (mapGet (handleConnection c u s).userSessions c).isSome = true
    rw [hget1]
    rfl
  · rw [hd]
    rfl
  · rw [hd]
    show s.nextHandle ∉ ((s.nextHandle :: s.activeHandles).erase s.nextHandle)
    rw [List.erase_cons_head]
    exact hfresh
  · rw [hd]
    rfl

/-- Witness for C1 (amended) on the empty initial state. -/
theorem C1_disconnect_partial_cleanup_witness :
    (handleDisconnect "c1" (handleConnection "c1" (some "u1") GatewayState.initial)).userSessions
        = (handleConnection "c1" (some "u1") GatewayState.initial).userSessions ∧
    (mapGet (handleDisconnect "c1" (handleConnection "c1" (some "u1") GatewayState.initial)).userSessions "c1").isSome = true ∧
    (handleDisconnect "c1" (handleConnection "c1" (some "u1") GatewayState.initial)).globalEventHandlers
        = GatewayState.initial.globalEventHandlers ++ ["c1"] ∧
    GatewayState.initial.nextHandle
        ∉ (handleDisconnect "c1" (handleConnection "c1" (some "u1") GatewayState.initial)).activeHandles ∧
    (handleDisconnect "c1" (handleConnection "c1" (some "u1") GatewayState.initial)).cancelCalls
        = GatewayState.initial.cancelCalls ++ [GatewayState.initial.nextHandle] :=
  C1_disconnect_partial_cleanup GatewayState.initial "c1" (some "u1") (by decide)

/-- Claim C2 is false on the code: after connect and `subscribe_updates` on
`c1`, the created interval (handle 1) is active but the session's recorded
`intervals` list is still empty, and after disconnect the interval is still
active — the periodic delivery is not stopped. -/
theorem C2_counterexample :
    (handleSubscribeUpdates "c1" "u1" (handleConnection "c1" (some "u1") GatewayState.initial)).2
        = some ("subscribed", "u1") ∧
    (1 : Nat) ∈ (handleSubscribeUpdates "c1" "u1"
        (handleConnection "c1" (some "u1") GatewayState.initial)).1.activeHandles ∧
    (mapGet (handleSubscribeUpdates "c1" "u1"
        (handleConnection "c1" (some "u1") GatewayState.initial)).1.userSessions "c1").map
        (fun x => x.intervals) = some [] ∧
    (1 : Nat) ∈ (handleDisconnect "c1" (handleSubscribeUpdates "c1" "u1"
        (handleConnection "c1" (some "u1") GatewayState.initial)).1).activeHandles := by
  decide

/-- Claim C2 (amended): `subscribe_updates` on a registered session creates
and activates a new interval but records it in no session — every session
record, in particular the caller's `intervals` list, is left exactly as it
was — and a subsequent disconnect of that connection leaves the interval
active. -/
theorem C2_subscribe_not_recorded (s : GatewayState) (c u : String)
    (sess : UserSession) (hget : mapGet s.userSessions c = some sess)
    (hts : ∀ t ∈ sess.timers, t < s.nextHandle) :
    (handleSubscribeUpdates c u s).2 = some ("subscribed", u) ∧
    (handleSubscribeUpdates c u s).1.userSessions = s.userSessions ∧
    s.nextHandle ∈ (handleSubscribeUpdates c u s).1.activeHandles ∧
    s.nextHandle ∈ (handleDisconnect c (handleSubscribeUpdates c u s).1).activeHandles := by
  have hs := handleSubscribeUpdates_found s c u sess hget
  refine ⟨?_, ?_, ?_, ?_⟩
  · rw [hs]
  · rw [hs]
  · rw [hs]
    exact List.mem_cons_self _ _
  · have husers : (handleSubscribeUpdates c u s).1.userSessions = s.userSessions := by
      rw [hs]
    have hact : (handleSubscribeUpdates c u s).1.activeHandles
        = s.nextHandle :: s.activeHandles := by
      rw [hs]
    have hget2 : mapGet (handleSubscribeUpdates c u s).1.userSessions c = some sess := by
      rw [husers]
      exact hget
    cases htm : sess.timers with
    | nil =>
      rw [handleDisconnect_found_no_timer _ c sess hget2 htm, hact]
      exact List.mem_cons_self _ _
    | cons t ts =>
      rw [handleDisconnect_found _ c sess t ts hget2 htm]
      show s.nextHandle ∈ (handleSubscribeUpdates c u s).1.activeHandles.erase t
      rw [hact]
      have htlt : t < s.nextHandle := hts t (htm ▸ List.mem_cons_self t ts)
      rw [List.erase_cons_tail]
      · exact List.mem_cons_self _ _
      · simp [Nat.ne_of_gt htlt]

/-- Witness for C2 (amended): the freshly connected session of `c1`. -/
theorem C2_subscribe_not_recorded_witness :
    (handleSubscribeUpdates "c1" "u1" (handleConnection "c1" (some "u1") GatewayState.initial)).2
        = some ("subscribed", "u1") ∧
    (handleSubscribeUpdates "c1" "u1" (handleConnection "c1" (some "u1") GatewayState.initial)).1.userSessions
        = (handleConnection "c1" (some "u1") GatewayState.initial).userSessions ∧
    (handleConnection "c1" (some "u1") GatewayState.initial).nextHandle
        ∈ (handleSubscribeUpdates "c1" "u1" (handleConnection "c1" (some "u1") GatewayState.initial)).1.activeHandles ∧
    (handleConnection "c1" (some "u1") GatewayState.initial).nextHandle
        ∈ (handleDisconnect "c1" (handleSubscribeUpdates "c1" "u1"
            (handleConnection "c1" (some "u1") GatewayState.initial)).1).activeHandles :=
  C2_subscribe_not_recorded (handleConnection "c1" (some "u1") GatewayState.initial)
    "c1" "u1"
    { userId := "u1", socketId := "c1", dataSize := 1024 * 1024,
      timers := [0], intervals := [], listeners := ["pong"] }
    (by decide) (by decide)

/-- Claim C4 is false on the code: connecting `c1` again while it is
registered silently overwrites the entry — afterwards the stored session
carries the new `userId` and the map still has exactly one entry; no
`DuplicateConnection` failure occurs and the prior session is not left
intact. -/
theorem C4_counterexample :
    (mapGet (handleConnection "c1" (some "u2")
        (handleConnection "c1" (some "u1") GatewayState.initial)).userSessions "c1").map
        (fun x => x.userId) = some "u2" ∧
    (handleConnection "c1" (some "u2")
        (handleConnection "c1" (some "u1") GatewayState.initial)).userSessions.length = 1 := by
  decide

/-- Claim C4 (amended): connecting a `connectionId` that is already present
does not fail: it silently overwrites the registry entry with a fresh
session for the new user id, keeping the entry count unchanged. -/
theorem C4_register_overwrites (s : GatewayState) (c u : String)
    (old : UserSession) (hget : mapGet s.userSessions c = some old) :
    (mapGet (handleConnection c (some u) s).userSessions c).map
        (fun x => x.userId) = some u ∧
    (handleConnection c (some u) s).userSessions.length = s.userSessions.length := by
  constructor
  · rw [handleConnection_userSessions, mapGet_mapSet_self]
    rfl
  · rw [handleConnection_userSessions, length_mapSet,
        if_pos (any_key_of_mapGet_some s.userSessions c old hget)]

/-- Witness for C4 (amended): reconnecting `c1` over its live session. -/
theorem C4_register_overwrites_witness :
    (mapGet (handleConnection "c1" (some "u2")
        (handleConnection "c1" (some "u1") GatewayState.initial)).userSessions "c1").map
        (fun x => x.userId) = some "u2" ∧
    (handleConnection "c1" (some "u2")
        (handleConnection "c1" (some "u1") GatewayState.initial)).userSessions.length
      = (handleConnection "c1" (some "u1") GatewayState.initial).userSessions.length :=
  C4_register_overwrites (handleConnection "c1" (some "u1") GatewayState.initial)
    "c1" "u2"
    { userId := "u1", socketId := "c1", dataSize := 1024 * 1024,
      timers := [0], intervals := [], listeners := ["pong"] }
    (by decide)

/-- Claim C5 is false on the code: the second disconnect of `c1` does not
return NotFound — the session is still registered when it runs — and it
cancels the first timer a second time (`clearInterval` is invoked twice on
handle 0). -/
theorem C5_counterexample :
    (handleDisconnect "c1" (handleDisconnect "c1"
        (handleConnection "c1" (some "u1") GatewayState.initial))).cancelCalls = [0, 0] ∧
    (mapGet (handleDisconnect "c1"
        (handleConnection "c1" (some "u1") GatewayState.initial)).userSessions "c1").isSome
      = true := by
  decide

/-- Claim C5 (amended): a second disconnect for the same connection finds
the still-registered session (it does not return NotFound) and issues a
second `clearInterval` on the session's first timer; it raises no exception
and leaves the registry, broadcast handlers and history unchanged. -/
theorem C5_second_disconnect (s : GatewayState) (c : String)
    (sess : UserSession) (t : Nat) (ts : List Nat)
    (hget : mapGet s.userSessions c = some sess) (htm : sess.timers = t :: ts) :
    mapGet (handleDisconnect c s).userSessions c = some sess ∧
    (handleDisconnect c (handleDisconnect c s)).cancelCalls
        = (s.cancelCalls ++ [t]) ++ [t] ∧
    (handleDisconnect c (handleDisconnect c s)).userSessions = s.userSessions ∧
    (handleDisconnect c (handleDisconnect c s)).globalEventHandlers
        = s.globalEventHandlers ∧
    (handleDisconnect c (handleDisconnect c s)).messageHistory = s.messageHistory := by
  have h1 := handleDisconnect_found s c sess t ts hget htm
  have hget1 : mapGet (handleDisconnect c s).userSessions c = some sess := by
    rw [h1]
    exact hget
  have h2 := handleDisconnect_found (handleDisconnect c s) c sess t ts hget1 htm
  refine ⟨hget1, ?_, ?_, ?_, ?_⟩ <;> rw [h2, h1]

/-- Witness for C5 (amended): double disconnect of the fresh `c1` session. -/
theorem C5_second_disconnect_witness :
    mapGet (handleDisconnect "c1"
        (handleConnection "c1" (some "u1") GatewayState.initial)).userSessions "c1"
      = some { userId := "u1", socketId := "c1", dataSize := 1024 * 1024,
               timers := [0], intervals := [], listeners := ["pong"] } ∧
    (handleDisconnect "c1" (handleDisconnect "c1"
        (handleConnection "c1" (some "u1") GatewayState.initial))).cancelCalls
      = ((handleConnection "c1" (some "u1") GatewayState.initial).cancelCalls ++ [0]) ++ [0] ∧
    (handleDisconnect "c1" (handleDisconnect "c1"
        (handleConnection "c1" (some "u1") GatewayState.initial))).userSessions
      = (handleConnection "c1" (some "u1") GatewayState.initial).userSessions ∧
    (handleDisconnect "c1" (handleDisconnect "c1"
        (handleConnection "c1" (some "u1") GatewayState.initial))).globalEventHandlers
      = (handleConnection "c1" (some "u1") GatewayState.initial).globalEventHandlers ∧
    (handleDisconnect "c1" (handleDisconnect "c1"
        (handleConnection "c1" (some "u1") GatewayState.initial))).messageHistory
      = (handleConnection "c1" (some "u1") GatewayState.initial).messageHistory :=
  C5_second_disconnect (handleConnection "c1" (some "u1") GatewayState.initial)
    "c1"
    { userId := "u1", socketId := "c1", dataSize := 1024 * 1024,
      timers := [0], intervals := [], listeners := ["pong"] }
    0 [] (by decide) rfl
